import Mathlib

/-!
Verification of the discovery / gating / execution pipeline of
`meme_trend_analyzer.py` (rishi1123d/solwarrior).

The script is shallowly embedded: each external collaborator (HTTP feed,
rugcheck page, chain endpoint, Telegram channel) becomes an explicit input
describing the response that the collaborator would produce, and each
side-effecting function becomes a pure function that also returns the trace
of collaborator calls it makes. Python exceptions become `Except` values;
a Python `try/except` branch becomes a `match` on the corresponding
`Except` input.
-/

namespace SolWarrior

/-! ## Source adapters (get_new_tokens_from_gmgn / get_new_tokens_from_pumpfun) -/

/-- One normalised token record, as built by the adapter bodies
(dict with keys source, name, symbol, contract). -/
structure Token where
  source : String
  name : String
  symbol : String
  contract : String
deriving DecidableEq, Repr

/-- One parsed HTML card, as seen by the adapter loop: the three tags it
looks up. `name_tag` and `symbol_tag` are the tag texts when the tag is
present; `contract_link` is `some href?` when the link element is present,
where `href?` is its href attribute (the code defaults a missing href
to the empty string). -/
structure TokenCard where
  name_tag : Option String
  symbol_tag : Option String
  contract_link : Option (Option String)
deriving DecidableEq, Repr

/-- Body of the GMGN per-card loop: a card yields a token exactly when both
the name tag and the contract link are present; a missing symbol tag or a
missing href degrades to the empty string. -/
def parse_gmgn_card (card : TokenCard) : Option Token :=
  match card.name_tag, card.contract_link with
  | some nm, some href => some ⟨"GMGN", nm, card.symbol_tag.getD "", href.getD ""⟩
  | _, _ => none

/-- Body of the Pumpfun per-listing loop (same shape, source tag Pumpfun). -/
def parse_pumpfun_card (card : TokenCard) : Option Token :=
  match card.name_tag, card.contract_link with
  | some nm, some href => some ⟨"Pumpfun", nm, card.symbol_tag.getD "", href.getD ""⟩
  | _, _ => none

/-- `get_new_tokens_from_gmgn`: the whole fetch-and-parse body runs inside
`try/except`; any raised error makes the function return the empty list.
The input models the outcome of the HTTP fetch and parse: either an error
(exception text) or the parsed list of token cards. -/
def get_new_tokens_from_gmgn (fetch : Except String (List TokenCard)) : List Token :=
  match fetch with
  | .error _ => []
  | .ok cards => cards.filterMap parse_gmgn_card

/-- `get_new_tokens_from_pumpfun`: same structure as the GMGN adapter. -/
def get_new_tokens_from_pumpfun (fetch : Except String (List TokenCard)) : List Token :=
  match fetch with
  | .error _ => []
  | .ok cards => cards.filterMap parse_pumpfun_card

/-- `aggregate_tokens`: concatenation of the two adapter results. -/
def aggregate_tokens (gmgn_fetch pumpfun_fetch : Except String (List TokenCard)) :
    List Token :=
  get_new_tokens_from_gmgn gmgn_fetch ++ get_new_tokens_from_pumpfun pumpfun_fetch

/-- ASCII lowercase of one character. -/
def lowerChar (c : Char) : Char :=
  if c.isUpper then Char.ofNat (c.toNat + 32) else c

/-- ASCII lowercase of a string, character by character. -/
def lowerStr (s : String) : String := ⟨s.data.map lowerChar⟩

/-- Number of aggregated tokens whose contract address equals `a` up to
ASCII case (the identity key of the data model). -/
def countAddr (a : String) (ts : List Token) : Nat :=
  (ts.filter fun t => lowerStr t.contract == a).length

/-! ## Risk evaluator (check_contract_rugcheck) -/

/-- The rugcheck result page as the parser sees it: the three elements it
looks up, each possibly absent. -/
structure RugPage where
  score_tag : Option String
  status_tag : Option String
  additional_info_tag : Option String
deriving DecidableEq, Repr

/-- Return value of `check_contract_rugcheck`: the success dict
(contract_address, score, status, details) or the error dict
(contract_address, error). -/
inductive RugResult where
  | ok (contract_address score status details : String)
  | err (contract_address error : String)
deriving DecidableEq, Repr

/-- The contract_address key, present in both dict shapes. -/
def RugResult.contract : RugResult → String
  | .ok a _ _ _ => a
  | .err a _ => a

/-- Whether the dict carries the error key (the shape the caller tests
with `"error" not in rug_data`). -/
def RugResult.is_error : RugResult → Bool
  | .err _ _ => true
  | .ok _ _ _ _ => false

/-- The error text when present (the raw_error of the spec data model). -/
def RugResult.raw_error : RugResult → Option String
  | .err _ e => some e
  | .ok _ _ _ _ => none

/-- `check_contract_rugcheck`: the fetch and parse run inside `try/except`.
A raised error (network failure, HTTP error status) returns the error dict
with the exception text; a parsed page returns the success dict, each
missing tag degrading to the string N/A. -/
def check_contract_rugcheck (contract_address : String)
    (resp : Except String RugPage) : RugResult :=
  match resp with
  | .error e => .err contract_address e
  | .ok page =>
      .ok contract_address (page.score_tag.getD "N/A") (page.status_tag.getD "N/A")
        (page.additional_info_tag.getD "N/A")

/-- The purchase condition of `main` (lines 411 and 416): buy exactly when
the rugcheck dict has no error key and its status text differs from N/A. -/
def gate_decide (rug_data : RugResult) : Bool :=
  match rug_data with
  | .err _ _ => false
  | .ok _ _ status _ => status != "N/A"

/-! ## Purchase executor (buy_token) -/

/-- The swap transaction as built by `buildTransaction`: the five ABI
arguments of swapExactTokensForTokens plus the transaction fields. -/
structure Tx where
  amountIn : Nat
  amountOutMin : Nat
  path : List String
  toAddr : String
  deadline : Nat
  fromAddr : String
  nonce : Nat
  gas : Nat
  gasPrice : Nat
deriving DecidableEq, Repr

/-- A transaction receipt as returned by the chain. -/
structure Receipt where
  transactionHash : String
deriving DecidableEq, Repr

/-- One call to the chain collaborator, recorded in order. -/
inductive ChainCall where
  | getTransactionCount
  | getBlock
  | sendRawTransaction (tx : Tx)
  | waitForReceipt (tx_hash : String)
deriving DecidableEq, Repr

/-- The chain collaborator: the nonce and latest block timestamp it reports,
the hash assigned to a submitted raw transaction, and the outcome of
waiting for a receipt of a given hash (a receipt, or a raised timeout
error). -/
structure Chain where
  nonce : Nat
  latestTimestamp : Nat
  hashOf : Tx → String
  receiptOf : String → Except String Receipt

/-- The WETH base asset address hardcoded as TOKEN_IN. -/
def TOKEN_IN : String := "0xC02aaa39b223FE8D0A0e5C4F27ead9083C756Cc2"

/-- The transaction `buy_token` builds: swap `amount_in_wei` of TOKEN_IN
into the target contract, amountOutMin 0, recipient the signing account,
deadline latest timestamp + 300, the reported nonce, gas 300000 and
gasPrice 10 gwei. -/
def mkTx (env : Chain) (accountAddr contract_address : String)
    (amount_in_wei : Nat) : Tx :=
  { amountIn := amount_in_wei
    amountOutMin := 0
    path := [TOKEN_IN, contract_address]
    toAddr := accountAddr
    deadline := env.latestTimestamp + 300
    fromAddr := accountAddr
    nonce := env.nonce
    gas := 300000
    gasPrice := 10000000000 }

/-- `buy_token`: raises when web3 is not initialised (no chain call);
otherwise reads the nonce and the latest block, builds and signs the
transaction, submits it exactly once, and waits for the receipt. The
result is the receipt, or the error raised by the wait; the second
component is the ordered trace of chain calls. -/
def buy_token (env : Chain) (web3Initialized : Bool) (accountAddr : String)
    (contract_address : String) (amount_in_wei : Nat) :
    Except String Receipt × List ChainCall :=
  if web3Initialized then
    let tx := mkTx env accountAddr contract_address amount_in_wei
    let tx_hash := env.hashOf tx
    (env.receiptOf tx_hash,
      [.getTransactionCount, .getBlock, .sendRawTransaction tx, .waitForReceipt tx_hash])
  else
    (.error "Web3 not initialized. Check your RPC_URL.", [])

/-- Whether a chain call is a transaction submission. -/
def isSend : ChainCall → Bool
  | .sendRawTransaction _ => true
  | _ => false

/-- Number of transaction submissions in a trace. -/
def countSends (trace : List ChainCall) : Nat := (trace.filter isSend).length

/-! ## Notifier (send_telegram_message) and orchestration (main, step 4) -/

/-- `send_telegram_message`: when no bot is configured it only prints and
sends nothing; otherwise it attempts one delivery, and a failure of the
channel is caught and printed, never re-raised. The channel is modelled as
a function from the message to the delivery outcome; the result is the
list of delivery attempts actually made (the return type has no error
case: the function cannot raise). -/
def send_telegram_message (bot : Option (String → Except String Unit))
    (message : String) : List String :=
  match bot with
  | none => []
  | some send =>
    match send message with
    | .ok _ => [message]
    | .error _ => [message]

/-- Terminal outcome of the rugcheck-and-buy step of `main`. -/
inductive Outcome where
  | NoTokens
  | RugError (e : String)
  | Skipped
  | Purchased (receipt : Receipt)
  | BuyFailed (e : String)
deriving DecidableEq, Repr

/-- Result of the rugcheck-and-buy step of `main`: the terminal outcome,
the Telegram delivery attempts made, and the contract addresses that were
submitted to the rugcheck collaborator. -/
structure Run4Result where
  outcome : Outcome
  notifications : List String
  checked : List String
deriving DecidableEq, Repr

/-- The 0.001 ether purchase amount of `main`, in wei. -/
def demo_amount_in_wei : Nat := 1000000000000000

/-- The test_token of `main` line 409: the contract of the first token,
or the literal 0xDEADBEEF when that string is empty (Python `or`). -/
def effective_contract (t : Token) : String :=
  if t.contract = "" then "0xDEADBEEF" else t.contract

/-- Step 4 of `main` (lines 406 to 433): take the first aggregated token
if any, rugcheck its effective contract, and when the gate condition holds
attempt the purchase, notifying Telegram on success and on a raised buy
error. Tokens after the first are never touched by this step. -/
def main_step4 (tokens : List Token) (rugResp : Except String RugPage)
    (env : Chain) (web3Initialized : Bool) (accountAddr : String)
    (bot : Option (String → Except String Unit)) : Run4Result :=
  match tokens with
  | [] => ⟨.NoTokens, [], []⟩
  | t :: _ =>
    match check_contract_rugcheck (effective_contract t) rugResp with
    | .err _ e => ⟨.RugError e, [], [effective_contract t]⟩
    | .ok _ _ status _ =>
      if status ≠ "N/A" then
        match (buy_token env web3Initialized accountAddr (effective_contract t)
            demo_amount_in_wei).1 with
        | .ok receipt =>
            ⟨.Purchased receipt,
              send_telegram_message bot
                ("Purchased token " ++ effective_contract t ++ "! TX: "
                  ++ receipt.transactionHash),
              [effective_contract t]⟩
        | .error e =>
            ⟨.BuyFailed e,
              send_telegram_message bot
                ("Buy error for " ++ effective_contract t ++ ": " ++ e),
              [effective_contract t]⟩
      else ⟨.Skipped, [], [effective_contract t]⟩

/-- Whether an outcome corresponds to an attempted purchase. -/
def attempted : Outcome → Bool
  | .Purchased _ => true
  | .BuyFailed _ => true
  | _ => false

/-! ## Concrete collaborators used by counterexamples and witnesses -/

/-- A chain on which every submission is assigned the hash 0xhash and every
wait returns a receipt for the waited hash. -/
def testChain : Chain :=
  { nonce := 7
    latestTimestamp := 1000
    hashOf := fun _ => "0xhash"
    receiptOf := fun h => .ok ⟨h⟩ }

/-- A chain on which every wait for a receipt times out. -/
def timeoutChain : Chain :=
  { nonce := 0
    latestTimestamp := 0
    hashOf := fun _ => "0xsubmitted"
    receiptOf := fun _ => .error "timeout waiting for receipt" }

/-- A GMGN card and a Pumpfun card carrying the same contract address up to
case, from different sources. -/
def dupCardX : TokenCard := ⟨some "PepeX", some "PPX", some (some "0xABC")⟩

/-- The Pumpfun twin of `dupCardX`. -/
def dupCardY : TokenCard := ⟨some "PepeY", some "PPY", some (some "0xabc")⟩

/-- A first aggregated token for the orchestration counterexamples. -/
def tokA : Token := ⟨"GMGN", "Pepe", "PP", "0xaaa"⟩

/-- A second aggregated token for the orchestration counterexamples. -/
def tokB : Token := ⟨"Pumpfun", "Doge", "DG", "0xbbb"⟩

/-! ## Theorems -/

/-- With a configured bot, one delivery attempt is made whatever the
channel answers. -/
theorem send_configured_attempts (send : String → Except String Unit) (msg : String) :
    send_telegram_message (some send) msg = [msg] := by
  cases hs : send msg <;> simp [send_telegram_message, hs]

/-- C10: for every queried contract address and every collaborator response,
`check_contract_rugcheck` returns a dict whose contract_address field equals
the queried address, on the success branch and on the error branch alike. -/
theorem C10_contract_address_preserved (contract_address : String)
    (resp : Except String RugPage) :
    (check_contract_rugcheck contract_address resp).contract = contract_address := by
  cases resp <;> rfl

/-- C5 counterexample: a malformed collaborator response — a page that
parses but carries none of the expected result elements — does not yield
the error form: `check_contract_rugcheck` returns the success dict with
N/A placeholders, with no error key and no raw error text, contradicting
the claim that a malformed response maps to status Error with raw_error
populated. -/
theorem C5_counterexample :
    (check_contract_rugcheck "0xabc" (.ok ⟨none, none, none⟩)).is_error = false
  ∧ (check_contract_rugcheck "0xabc" (.ok ⟨none, none, none⟩)).raw_error = none
  ∧ check_contract_rugcheck "0xabc" (.ok ⟨none, none, none⟩)
      = .ok "0xabc" "N/A" "N/A" "N/A" := by
  refine ⟨rfl, rfl, rfl⟩

/-- C5 (amended): when the collaborator call raises (network failure, HTTP
error status, or any other exception), `check_contract_rugcheck` returns
the error dict — error flag set, raw error equal to the exception text,
never a raised exception — while any response that parses, even one
missing every expected field, yields the non-error dict with N/A
placeholders. -/
theorem C5_error_as_data (contract_address e : String) (page : RugPage) :
    check_contract_rugcheck contract_address (.error e) = .err contract_address e
  ∧ (check_contract_rugcheck contract_address (.error e)).is_error = true
  ∧ (check_contract_rugcheck contract_address (.error e)).raw_error = some e
  ∧ (check_contract_rugcheck contract_address (.ok page)).is_error = false := by
  refine ⟨rfl, rfl, rfl, rfl⟩

/-- C1: a rugcheck response whose status text is Unknown passes the gate of
`main` — the code proceeds to the purchase attempt whenever the status text
differs from N/A — while a raised collaborator error does fail closed.
This contradicts the requirement that a status of Unknown never leads to a
purchase attempt. -/
theorem C1_unknown_status_passes_gate :
    gate_decide (check_contract_rugcheck "0xabc"
      (.ok ⟨some "50", some "Unknown", some "details"⟩)) = true
  ∧ gate_decide (check_contract_rugcheck "0xabc" (.error "network down")) = false := by
  refine ⟨by decide, rfl⟩

/-- C6: aggregation is a best-effort union: an adapter whose fetch raises
contributes the empty list, the run never aborts, and the aggregate is
exactly the concatenation of whatever the successful adapters produced —
for a failing GMGN fetch, a failing Pumpfun fetch, both failing, and both
succeeding. -/
theorem C6_best_effort_union (cs ds : List TokenCard) (e1 e2 : String) :
    aggregate_tokens (.error e1) (.ok ds) = get_new_tokens_from_pumpfun (.ok ds)
  ∧ aggregate_tokens (.ok cs) (.error e2) = get_new_tokens_from_gmgn (.ok cs)
  ∧ aggregate_tokens (.error e1) (.error e2) = []
  ∧ aggregate_tokens (.ok cs) (.ok ds)
      = get_new_tokens_from_gmgn (.ok cs) ++ get_new_tokens_from_pumpfun (.ok ds) := by
  refine ⟨rfl, by simp [aggregate_tokens, get_new_tokens_from_pumpfun], rfl, rfl⟩

/-- C3 counterexample: two cards with the same contract address up to case,
one from GMGN and one from Pumpfun, are both returned by
`aggregate_tokens`: the result holds two candidates for the one
case-insensitive address, not exactly one. -/
theorem C3_counterexample :
    (aggregate_tokens (.ok [dupCardX]) (.ok [dupCardY])).length = 2
  ∧ countAddr "0xabc" (aggregate_tokens (.ok [dupCardX]) (.ok [dupCardY])) = 2
  ∧ aggregate_tokens (.ok [dupCardX]) (.ok [dupCardY])
      = [⟨"GMGN", "PepeX", "PPX", "0xABC"⟩, ⟨"Pumpfun", "PepeY", "PPY", "0xabc"⟩] := by
  refine ⟨rfl, by decide, rfl⟩

/-- C3 (amended): the aggregator performs no merging at all: it returns
the GMGN candidates followed by the Pumpfun candidates, so for every
case-insensitive contract address the number of returned candidates with
that address is the sum of the per-adapter counts — duplicates across
sources stay distinct, each keeping its own source, name and symbol. -/
theorem C3_no_dedup (gmgn_fetch pumpfun_fetch : Except String (List TokenCard))
    (a : String) :
    countAddr a (aggregate_tokens gmgn_fetch pumpfun_fetch)
      = countAddr a (get_new_tokens_from_gmgn gmgn_fetch)
        + countAddr a (get_new_tokens_from_pumpfun pumpfun_fetch) := by
  unfold aggregate_tokens countAddr
  rw [List.filter_append, List.length_append]

/-- C2 counterexample: called with amount 0 on an initialised web3, the
executor does not fail with a validation error and does make chain calls:
it submits the zero-amount swap and returns the receipt, its trace holding
a submission of the transaction with amountIn 0. -/
theorem C2_counterexample :
    (buy_token testChain true "0xme" "0xtoken" 0).1 = .ok ⟨"0xhash"⟩
  ∧ ChainCall.sendRawTransaction (mkTx testChain "0xme" "0xtoken" 0)
      ∈ (buy_token testChain true "0xme" "0xtoken" 0).2
  ∧ countSends (buy_token testChain true "0xme" "0xtoken" 0).2 = 1
  ∧ (mkTx testChain "0xme" "0xtoken" 0).amountIn = 0 := by
  refine ⟨rfl, by decide, rfl, rfl⟩

/-- C2 (amended): `buy_token` never validates the amount: with amount 0
and web3 initialised it reads the nonce and latest block, then builds,
submits and awaits the zero-amount swap exactly as for a positive amount;
the only pre-flight check is web3 initialisation, whose failure raises a
ValueError before any chain call is made. -/
theorem C2_no_amount_validation (env : Chain) (accountAddr contract_address : String) :
    (buy_token env true accountAddr contract_address 0).2
      = [.getTransactionCount, .getBlock,
          .sendRawTransaction (mkTx env accountAddr contract_address 0),
          .waitForReceipt (env.hashOf (mkTx env accountAddr contract_address 0))]
  ∧ (buy_token env true accountAddr contract_address 0).1
      = env.receiptOf (env.hashOf (mkTx env accountAddr contract_address 0))
  ∧ buy_token env false accountAddr contract_address 0
      = (.error "Web3 not initialized. Check your RPC_URL.", []) := by
  refine ⟨rfl, rfl, rfl⟩

/-- C4: every invocation of `buy_token` submits at most one transaction,
and when the wait for the receipt of the submitted transaction times out,
exactly one submission was made, the timeout error is returned to the
caller (no silent retry, no second submission), and the trace shows the
wait was on the hash of the one submitted transaction — the original
submission id. -/
theorem C4_at_most_once_no_resubmit (env : Chain) (accountAddr contract_address : String)
    (amount_in_wei : Nat) (e : String)
    (h : env.receiptOf (env.hashOf (mkTx env accountAddr contract_address amount_in_wei))
          = .error e) :
    (∀ (env2 : Chain) (b : Bool) (a2 c2 : String) (amt2 : Nat),
        countSends (buy_token env2 b a2 c2 amt2).2 ≤ 1)
  ∧ countSends (buy_token env true accountAddr contract_address amount_in_wei).2 = 1
  ∧ (buy_token env true accountAddr contract_address amount_in_wei).1 = .error e
  ∧ ChainCall.waitForReceipt
        (env.hashOf (mkTx env accountAddr contract_address amount_in_wei))
      ∈ (buy_token env true accountAddr contract_address amount_in_wei).2 := by
  refine ⟨?_, rfl, ?_, ?_⟩
  · intro env2 b a2 c2 amt2
    cases b <;> simp [buy_token, countSends, isSend]
  · simp [buy_token, h]
  · simp [buy_token]

/-- C4 witness: on a chain whose waits all time out, a concrete invocation
submits exactly once, returns the timeout error, and its trace waits on
the hash of the single submitted transaction. -/
theorem C4_witness :
    timeoutChain.receiptOf (timeoutChain.hashOf (mkTx timeoutChain "0xme" "0xtok" 1000))
        = .error "timeout waiting for receipt"
  ∧ ((∀ (env2 : Chain) (b : Bool) (a2 c2 : String) (amt2 : Nat),
        countSends (buy_token env2 b a2 c2 amt2).2 ≤ 1)
    ∧ countSends (buy_token timeoutChain true "0xme" "0xtok" 1000).2 = 1
    ∧ (buy_token timeoutChain true "0xme" "0xtok" 1000).1
        = .error "timeout waiting for receipt"
    ∧ ChainCall.waitForReceipt
          (timeoutChain.hashOf (mkTx timeoutChain "0xme" "0xtok" 1000))
        ∈ (buy_token timeoutChain true "0xme" "0xtok" 1000).2) :=
  ⟨rfl, C4_at_most_once_no_resubmit timeoutChain "0xme" "0xtok" 1000
      "timeout waiting for receipt" rfl⟩

/-- C7 counterexample: a candidate whose rugcheck status text is N/A
reaches the terminal outcome Skipped, yet zero notifications are emitted
even with a working Telegram bot configured — contradicting exactly one
notification per terminal outcome. -/
theorem C7_counterexample :
    (main_step4 [tokA] (.ok ⟨some "1", some "N/A", some "d"⟩) testChain true "0xme"
        (some fun _ => .ok ())).outcome = .Skipped
  ∧ (main_step4 [tokA] (.ok ⟨some "1", some "N/A", some "d"⟩) testChain true "0xme"
        (some fun _ => .ok ())).notifications = [] := by
  refine ⟨by decide, by decide⟩

/-- C7 (amended): with a Telegram bot configured, exactly one notification
attempt is made precisely when the run reaches an attempted purchase — one
for a successful buy, one for a raised buy error — while the Skipped,
rugcheck-error and no-token outcomes emit none. -/
theorem C7_one_notification_per_attempt (tokens : List Token)
    (rugResp : Except String RugPage) (env : Chain) (b : Bool) (accountAddr : String)
    (send : String → Except String Unit) :
    (main_step4 tokens rugResp env b accountAddr (some send)).notifications.length
      = (if attempted (main_step4 tokens rugResp env b accountAddr (some send)).outcome
          then 1 else 0) := by
  cases tokens with
  | nil => rfl
  | cons t rest =>
    rcases hc : check_contract_rugcheck (effective_contract t) rugResp with
      ⟨a, s, st, d⟩ | ⟨a, e⟩
    · by_cases hst : st = "N/A"
      · simp [main_step4, hc, hst, attempted]
      · rcases hb : (buy_token env b accountAddr (effective_contract t)
            demo_amount_in_wei).1 with r | e2
          <;> simp [main_step4, hc, hst, hb, attempted, send_configured_attempts]
    · simp [main_step4, hc, attempted]

/-- C8 counterexample: with two discovered candidates and a rugcheck
response that lets the first one through to a confirmed purchase, the run
completes having rug-checked only the first contract: the second candidate
is never submitted to the safety check and receives no outcome. -/
theorem C8_counterexample :
    (main_step4 [tokA, tokB] (.ok ⟨some "1", some "Safe", some "d"⟩) testChain true
        "0xme" none).outcome = .Purchased ⟨"0xhash"⟩
  ∧ (main_step4 [tokA, tokB] (.ok ⟨some "1", some "Safe", some "d"⟩) testChain true
        "0xme" none).checked = ["0xaaa"]
  ∧ "0xbbb" ∉ (main_step4 [tokA, tokB] (.ok ⟨some "1", some "Safe", some "d"⟩) testChain
        true "0xme" none).checked := by
  refine ⟨by decide, by decide, by decide⟩

/-- C8 (amended): the rugcheck-and-buy step of `main` processes at most the
first discovered candidate: its result is identical whatever tokens follow
the first, and the only contract ever submitted to the safety check is
that of the first token (falling back to 0xDEADBEEF when its contract
string is empty); every later candidate is left unevaluated, ungated and
without an outcome. -/
theorem C8_first_candidate_only (t : Token) (rest : List Token)
    (rugResp : Except String RugPage) (env : Chain) (b : Bool) (accountAddr : String)
    (bot : Option (String → Except String Unit)) :
    main_step4 (t :: rest) rugResp env b accountAddr bot
      = main_step4 [t] rugResp env b accountAddr bot
  ∧ (main_step4 (t :: rest) rugResp env b accountAddr bot).checked
      = [effective_contract t] := by
  constructor
  · rfl
  · rcases hc : check_contract_rugcheck (effective_contract t) rugResp with
      ⟨a, s, st, d⟩ | ⟨a, e⟩
    · by_cases hst : st = "N/A"
      · simp [main_step4, hc, hst]
      · rcases hb : (buy_token env b accountAddr (effective_contract t)
            demo_amount_in_wei).1 with r | e2
          <;> simp [main_step4, hc, hst, hb]
    · simp [main_step4, hc]

/-- C9: notification is best-effort and silent on failure: with a bot
configured the delivery attempt is made whether the channel succeeds or
fails and the failure is swallowed (the function has no error result);
with no bot nothing is sent; and the terminal outcome of the run is
identical under any two notification channels, so a channel failure never
alters or masks the purchase outcome. -/
theorem C9_notification_best_effort (send : String → Except String Unit) (msg : String)
    (tokens : List Token) (rugResp : Except String RugPage) (env : Chain) (b : Bool)
    (accountAddr : String) (bot1 bot2 : Option (String → Except String Unit)) :
    send_telegram_message (some send) msg = [msg]
  ∧ send_telegram_message none msg = []
  ∧ (main_step4 tokens rugResp env b accountAddr bot1).outcome
      = (main_step4 tokens rugResp env b accountAddr bot2).outcome := by
  refine ⟨send_configured_attempts send msg, rfl, ?_⟩
  cases tokens with
  | nil => rfl
  | cons t rest =>
    rcases hc : check_contract_rugcheck (effective_contract t) rugResp with
      ⟨a, s, st, d⟩ | ⟨a, e⟩
    · by_cases hst : st = "N/A"
      · simp [main_step4, hc, hst]
      · rcases hb : (buy_token env b accountAddr (effective_contract t)
            demo_amount_in_wei).1 with r | e2
          <;> simp [main_step4, hc, hst, hb]
    · simp [main_step4, hc]

end SolWarrior
